import Mathlib

/-!
Verification of the risk-classification and conversation-session engine of
`sentimentscribebot` (src/app.py), as a shallow embedding in Lean 4.

Conventions of the embedding:
* Python floats become `ℚ` (all thresholds in the program are exact decimals).
* The external sentiment model (`sentiment_analyzer`, a HuggingFace pipeline) is a
  parameter of type `String → Option SentimentResult`; `none` models the call
  raising an exception.
* Python's `keyword in text_lower` substring test is `strContains`.
* Streamlit session state (`st.session_state`) becomes an explicit `Session` record
  threaded through the operations of `main`.
-/

namespace SentimentScribe

/-- Result of one call of the external sentiment pipeline: `{label, score}`
(src/app.py lines 43-45 read `result[0]['score']` and `result[0]['label']`). -/
structure SentimentResult where
  label : String
  score : ℚ
  deriving DecidableEq, Repr

/-- `needle.isPrefixOf hay` over character lists, then slide: Python's `in`
substring containment. -/
def containsSub (needle : List Char) : List Char → Bool
  | [] => needle.isEmpty
  | c :: rest => needle.isPrefixOf (c :: rest) || containsSub needle rest

/-- Python `needle in hay` for strings. -/
def strContains (hay needle : String) : Bool :=
  containsSub needle.data hay.data

/-- Python `s.lower()`, character by character (all text the program compares is
ASCII: the keyword list and the model labels). -/
def lowerStr (s : String) : String :=
  ⟨s.data.map Char.toLower⟩

/-- src/app.py lines 22-25: the configured risk keywords. -/
def RISK_KEYWORDS : List String :=
  ["suicide", "kill", "hurt", "harm", "die", "end my life",
   "self harm", "cut myself", "overdose", "pills"]

/-- src/app.py lines 48-51: lower-case the text and scan the keyword list. -/
def keywordMatch (text : String) : Bool :=
  RISK_KEYWORDS.any (fun keyword => strContains (lowerStr text) keyword)

/-- src/app.py lines 41-59, `detect_risk_level`: call the sentiment analyzer
(line 43; an exception there propagates, hence `none`), then the keyword scan
(lines 48-51), then the sentiment branches exactly in source order:
`if NEGATIVE and score > 0.8 → Medium`, `elif NEGATIVE and score > 0.95 → High`,
else `Normal`. -/
def detect_risk_level (sentiment_analyzer : String → Option SentimentResult)
    (text : String) : Option (String × ℚ) :=
  match sentiment_analyzer text with
  | none => none
  | some sentiment_result =>
    let sentiment_score := sentiment_result.score
    let sentiment_label := sentiment_result.label
    if keywordMatch text then
      some ("High", sentiment_score)
    else if sentiment_label = "NEGATIVE" ∧ sentiment_score > 8/10 then
      some ("Medium", sentiment_score)
    else if sentiment_label = "NEGATIVE" ∧ sentiment_score > 95/100 then
      some ("High", sentiment_score)
    else
      some ("Normal", sentiment_score)

/-- The same lines 41-59, with the analyzer modelled as a stream of responses
consumed one per call, to make the number of analyzer invocations observable:
the single call at line 43 consumes the head response. -/
def detect_risk_level_trace (responses : List (Option SentimentResult))
    (text : String) : Option (String × ℚ) × List (Option SentimentResult) :=
  match responses with
  | [] => (none, [])
  | resp :: rest =>
    match resp with
    | none => (none, rest)
    | some sentiment_result =>
      ((if keywordMatch text then
          some ("High", sentiment_result.score)
        else if sentiment_result.label = "NEGATIVE" ∧ sentiment_result.score > 8/10 then
          some ("Medium", sentiment_result.score)
        else if sentiment_result.label = "NEGATIVE" ∧ sentiment_result.score > 95/100 then
          some ("High", sentiment_result.score)
        else
          some ("Normal", sentiment_result.score)), rest)

/-- One stored conversation entry, src/app.py lines 165-171: the dict literal
appended to `st.session_state.conversations`. -/
structure Utterance where
  timestamp : String
  speaker : String
  text : String
  risk_level : String
  sentiment_score : ℚ
  deriving DecidableEq, Repr

/-- The session state the engine claims are about, src/app.py lines 27-39:
`conversations` (line 28-29) and `speaker_count` (line 30-31).  The remaining
keys initialized there (`risk_level`, `current_text`, `is_recording`,
`audio_frames_received`) are UI plumbing never read by the engine operations
modelled here, except that `risk_level` starts as `"Normal"` (line 33), which
grounds the empty-session value of `last_risk_tier`. -/
structure Session where
  speaker_count : Nat
  conversations : List Utterance
  deriving DecidableEq, Repr

/-- src/app.py lines 27-39: fresh state has no conversations and no speakers. -/
def initialize_session_state : Session :=
  { speaker_count := 0, conversations := [] }

/-- src/app.py line 158: the registered speakers offered by the selectbox,
`Person1 .. Person<speaker_count>`. -/
def speakers (s : Session) : List String :=
  (List.range s.speaker_count).map (fun i => "Person" ++ toString (i + 1))

/-- src/app.py lines 104-106: the Add New Speaker button increments
`speaker_count`. -/
def add_speaker (s : Session) : Session :=
  { s with speaker_count := s.speaker_count + 1 }

/-- Modelled from the spec: `ConversationSession.append` "fails with
`UnknownSpeaker` if `speaker_id` is not registered; otherwise appends".  The
source has no fallible append operation: `main` (lines 156-173) only ever
appends a speaker chosen from the registered list, so the rejection branch is
missing from src and is taken from the spec's words; the success branch is the
source's `st.session_state.conversations.append(conversation_entry)`
(line 173). -/
def sessionAppend (s : Session) (u : Utterance) : Except String Session :=
  if u.speaker ∈ speakers s then
    Except.ok { s with conversations := s.conversations ++ [u] }
  else
    Except.error "UnknownSpeaker"

/-- Run an append against the live state: on rejection the state is kept and
the error reported. -/
def runAppend (s : Session) (u : Utterance) : Session × Option String :=
  match sessionAppend s u with
  | Except.ok s2 => (s2, none)
  | Except.error e => (s, some e)

/-- A whole sequence of appends, keeping the state of each step. -/
def run_appends (s : Session) (entries : List Utterance) : Session :=
  entries.foldl (fun st u => (runAppend st u).1) s

/-- Modelled from the spec: `last_risk_tier() -> RiskTier`, "the tier of the
most recently appended utterance, or `Normal` if the session is empty (initial
state)".  The source keeps the current tier only in the local `risk_level` of
the latest processed utterance (line 162) and initializes the session value to
`"Normal"` (line 33); the named accessor itself is missing from src. -/
def last_risk_tier (s : Session) : String :=
  match s.conversations.getLast? with
  | none => "Normal"
  | some u => u.risk_level

/-- src/app.py lines 148-173, one incoming audio frame turned into text and
ingested: `audio_frame_callback` returns `None` on recognizer failure
(modelled as `none`); `if text:` (lines 83 and 153) is Python truthiness, i.e.
the utterance is processed exactly when the string is non-empty; then
`detect_risk_level` runs (an analyzer exception propagates, caught by nothing
but `except queue.Empty`), and the entry is appended to the history. -/
def ingest (sentiment_analyzer : String → Option SentimentResult) (s : Session)
    (speaker timestamp : String) (text : Option String) : Except String Session :=
  match text with
  | none => Except.ok s
  | some t =>
    if t = "" then Except.ok s
    else
      match detect_risk_level sentiment_analyzer t with
      | none => Except.error "uncaught sentiment analyzer exception"
      | some (risk_level, sentiment_value) =>
        Except.ok { s with conversations := s.conversations ++
          [{ timestamp := timestamp, speaker := speaker, text := t,
             risk_level := risk_level, sentiment_score := sentiment_value }] }

/-- Python `f"{x:.2f}"` for a score in `[0, 1]`: round to two decimal places
and print with a zero-padded two-digit fractional part. -/
def fmt2 (q : ℚ) : String :=
  let n : Nat := (round (q * 100)).toNat
  toString (n / 100) ++ "." ++
    (if n % 100 < 10 then "0" ++ toString (n % 100) else toString (n % 100))

/-- src/app.py lines 67-68: the two lines written per conversation entry,
with the blank separator line after them. -/
def record_block (conv : Utterance) : String :=
  conv.timestamp ++ " - " ++ conv.speaker ++ ": " ++ conv.text ++ "\n" ++
  "Risk Level: " ++ conv.risk_level ++ " - Sentiment: " ++
  fmt2 conv.sentiment_score ++ "\n\n"

/-- src/app.py lines 65-68: the file body, written by the for loop as one
block per entry in history order. -/
def save_conversation_text (conversations : List Utterance) : String :=
  conversations.foldl (fun acc conv => acc ++ record_block conv) ""

/-- src/app.py lines 61-69, `save_conversation`: the artifact name derived
from the export time (modelled by its strftime rendering `now`), and the
written body. -/
def save_conversation (conversations : List Utterance) (now : String) :
    String × String :=
  ("conversation_" ++ now ++ ".txt", save_conversation_text conversations)

/-- src/app.py lines 202-207: the Save Conversation button saves when the
history is non-empty and otherwise warns without saving. -/
def save_button_action (conversations : List Utterance) (now : String) :
    Except String (String × String) :=
  if conversations = [] then Except.error "No conversation to save yet"
  else Except.ok (save_conversation conversations now)

/-- A concrete stored record used by the concrete-scenario theorems. -/
def sampleRecord : Utterance :=
  { timestamp := "2025-01-01 00:00:00", speaker := "Person1",
    text := "hello", risk_level := "Normal", sentiment_score := 1 }

/-! ## Helper lemmas -/

/-- Appending one element to the front of a joined list of strings. -/
theorem string_join_cons (x : String) (xs : List String) :
    String.join (x :: xs) = x ++ String.join xs := by
  apply String.ext
  rw [String.join_eq, String.join_eq]
  simp

/-- The exporter's for loop, run from any accumulator, appends the join of the
blocks of the remaining entries. -/
theorem foldl_record_blocks (l : List Utterance) :
    ∀ acc : String, l.foldl (fun a conv => a ++ record_block conv) acc
      = acc ++ String.join (l.map record_block) := by
  induction l with
  | nil => intro acc; simp [String.join]
  | cons c t ih =>
    intro acc
    simp only [List.foldl_cons, List.map_cons]
    rw [ih, string_join_cons, String.append_assoc]

/-- The exported body is the concatenation, in history order, of one block per
entry. -/
theorem save_text_eq_join (conversations : List Utterance) :
    save_conversation_text conversations
      = String.join (conversations.map record_block) := by
  simpa using foldl_record_blocks conversations ""

/-- Whenever the analyzer call succeeds, classification succeeds and returns
the analyzer's own score in every branch. -/
theorem detect_score_passthrough (sentiment_analyzer : String → Option SentimentResult)
    (text : String) (r : SentimentResult)
    (hcall : sentiment_analyzer text = some r) :
    ∃ tier, detect_risk_level sentiment_analyzer text = some (tier, r.score) := by
  unfold detect_risk_level
  rw [hcall]
  dsimp only
  split_ifs <;> exact ⟨_, rfl⟩

/-- The numeric side conditions of the concrete Medium-tier scenario. -/
theorem score_088_above_080 : (8 : ℚ)/10 < 88/100 := by norm_num

/-- The concrete Medium-tier scenario is below the High threshold. -/
theorem score_088_below_095 : (88 : ℚ)/100 ≤ 95/100 := by norm_num

/-! ## Claims -/

/-- C1: the spec requires a NEGATIVE score above 0.95 (no keyword present) to
classify as High, but the source tests `score > 0.8` first and returns Medium,
leaving the `elif score > 0.95` High branch unreachable: at score 0.97 the
code yields Medium. -/
theorem C1_negative_097_yields_medium :
    detect_risk_level (fun _ => some ⟨"NEGATIVE", 97/100⟩) "nothing is okay"
      = some ("Medium", 97/100) := by
  have hk : keywordMatch "nothing is okay" = false := by decide
  simp [detect_risk_level, hk]
  norm_num

/-- C2: any text whose lower-cased form contains a configured risk keyword is
classified High, for every sentiment label and every score. -/
theorem C2_keyword_forces_high (sentiment_analyzer : String → Option SentimentResult)
    (text : String) (r : SentimentResult)
    (hcall : sentiment_analyzer text = some r)
    (hkey : ∃ keyword ∈ RISK_KEYWORDS, strContains (lowerStr text) keyword = true) :
    detect_risk_level sentiment_analyzer text = some ("High", r.score) := by
  have hk : keywordMatch text = true := by
    rcases hkey with ⟨k, hmem, hsub⟩
    unfold keywordMatch
    rw [List.any_eq_true]
    exact ⟨k, hmem, hsub⟩
  simp [detect_risk_level, hcall, hk]

/-- C2 witness: mixed-case keyword text, POSITIVE label, boundary score 0. -/
theorem C2_keyword_forces_high_witness :
    detect_risk_level (fun _ => some ⟨"POSITIVE", 0⟩) "I want to END my life"
      = some ("High", 0) :=
  C2_keyword_forces_high _ _ _ rfl ⟨"end my life", by decide, by decide⟩

/-- C3: with no keyword present, a NEGATIVE score in (0.80, 0.95] yields
Medium, a NEGATIVE score at or below 0.80 yields Normal (both bounds strict),
and a non-NEGATIVE label yields Normal for every score. -/
theorem C3_sentiment_thresholds (sentiment_analyzer : String → Option SentimentResult)
    (text : String) (r : SentimentResult)
    (hcall : sentiment_analyzer text = some r)
    (hk : keywordMatch text = false) :
    (r.label = "NEGATIVE" → 8/10 < r.score → r.score ≤ 95/100 →
      detect_risk_level sentiment_analyzer text = some ("Medium", r.score)) ∧
    (r.label = "NEGATIVE" → r.score ≤ 8/10 →
      detect_risk_level sentiment_analyzer text = some ("Normal", r.score)) ∧
    (r.label ≠ "NEGATIVE" →
      detect_risk_level sentiment_analyzer text = some ("Normal", r.score)) := by
  refine ⟨?_, ?_, ?_⟩
  · intro hlab hgt hle
    simp [detect_risk_level, hcall, hk, hlab, hgt]
  · intro hlab hle
    have h3 : ¬ ((8 : ℚ)/10 < r.score) := not_lt.mpr hle
    have h4 : ¬ ((95 : ℚ)/100 < r.score) := not_lt.mpr (hle.trans (by norm_num))
    simp [detect_risk_level, hcall, hk, hlab, h3, h4]
  · intro hlab
    simp [detect_risk_level, hcall, hk, hlab]

/-- C3 witness: NEGATIVE at 0.88 with no keyword classifies Medium. -/
theorem C3_sentiment_thresholds_witness :
    detect_risk_level (fun _ => some ⟨"NEGATIVE", 88/100⟩) "nothing feels okay anymore"
      = some ("Medium", 88/100) :=
  (C3_sentiment_thresholds _ _ _ rfl (by decide)).1 rfl
    score_088_above_080 score_088_below_095

/-- C4: saving with empty history is the no-op warning; saving k records
produces the timestamp-named artifact whose body is exactly the k record
blocks, one per history entry, in history order. -/
theorem C4_export_artifact (conversations : List Utterance) (now : String) :
    (conversations = [] →
      save_button_action conversations now
        = Except.error "No conversation to save yet") ∧
    (conversations ≠ [] →
      save_button_action conversations now
        = Except.ok ("conversation_" ++ now ++ ".txt",
            String.join (conversations.map record_block)) ∧
      (conversations.map record_block).length = conversations.length) := by
  constructor
  · intro h
    simp [save_button_action, h]
  · intro h
    refine ⟨?_, by simp⟩
    simp [save_button_action, h, save_conversation, save_text_eq_join]

/-- C4 witness: one stored record exports to one block. -/
theorem C4_export_artifact_witness :
    save_button_action [sampleRecord] "20250101_000000"
      = Except.ok ("conversation_" ++ "20250101_000000" ++ ".txt",
          String.join ([sampleRecord].map record_block)) ∧
    ([sampleRecord].map record_block).length = [sampleRecord].length :=
  (C4_export_artifact _ _).2 (by decide)

/-- C5: a run of successful appends extends the history by exactly the
appended records, in order, with their fields untouched, and leaves the
speaker registry unchanged. -/
theorem C5_history_append_only (s : Session) (entries : List Utterance)
    (h : ∀ u ∈ entries, u.speaker ∈ speakers s) :
    (run_appends s entries).conversations = s.conversations ++ entries ∧
    (run_appends s entries).speaker_count = s.speaker_count := by
  induction entries generalizing s with
  | nil => simp [run_appends]
  | cons u t ih =>
    have hu : u.speaker ∈ speakers s := h u (List.mem_cons_self u t)
    have step : runAppend s u
        = ({ s with conversations := s.conversations ++ [u] }, none) := by
      simp [runAppend, sessionAppend, hu]
    have ht : ∀ v ∈ t,
        v.speaker ∈ speakers { s with conversations := s.conversations ++ [u] } :=
      fun v hv => h v (List.mem_cons_of_mem _ hv)
    have hrec := ih { s with conversations := s.conversations ++ [u] } ht
    simp only [run_appends, List.foldl_cons, step] at hrec ⊢
    refine ⟨?_, hrec.2⟩
    rw [hrec.1]
    simp

/-- C5 witness: two appends for two registered speakers land in order. -/
theorem C5_history_append_only_witness :
    (run_appends ⟨2, []⟩
        [⟨"t1", "Person1", "hello", "Normal", 1⟩,
         ⟨"t2", "Person2", "nothing works", "Medium", 1⟩]).conversations
      = ([] : List Utterance) ++
        [⟨"t1", "Person1", "hello", "Normal", 1⟩,
         ⟨"t2", "Person2", "nothing works", "Medium", 1⟩] ∧
    (run_appends ⟨2, []⟩
        [⟨"t1", "Person1", "hello", "Normal", 1⟩,
         ⟨"t2", "Person2", "nothing works", "Medium", 1⟩]).speaker_count
      = (⟨2, []⟩ : Session).speaker_count :=
  C5_history_append_only _ _ (by decide)

/-- C6: an append naming an unregistered speaker is rejected with
UnknownSpeaker and the session state is returned unchanged. -/
theorem C6_unknown_speaker_rejected (s : Session) (u : Utterance)
    (h : u.speaker ∉ speakers s) :
    runAppend s u = (s, some "UnknownSpeaker") := by
  simp [runAppend, sessionAppend, h]

/-- C6 witness: appending to a fresh session, where no speaker is registered,
is rejected and leaves the state intact. -/
theorem C6_unknown_speaker_rejected_witness :
    runAppend initialize_session_state
        ⟨"t1", "Person1", "hello", "Normal", 1⟩
      = (initialize_session_state, some "UnknownSpeaker") :=
  C6_unknown_speaker_rejected _ _ (by decide)

/-- C7 counterexample: when the sentiment analyzer fails on a keyword-bearing
utterance, ingestion does not classify it High by keyword; the exception
propagates (only `queue.Empty` is caught) and nothing is stored. -/
theorem C7_analyzer_failure_counterexample :
    ingest (fun _ => none) initialize_session_state "Person1"
        "2025-01-01 00:00:00" (some "I think about suicide")
      = Except.error "uncaught sentiment analyzer exception" := rfl

/-- C7 amended: if the sentiment analyzer fails on any non-empty text, the
classifier produces no result at all — there is no keyword-only fallback and
the failure propagates as an error out of the ingestion step. -/
theorem C7_analyzer_failure_propagates (s : Session)
    (speaker timestamp t : String) (hne : t ≠ "") :
    ingest (fun _ => none) s speaker timestamp (some t)
      = Except.error "uncaught sentiment analyzer exception" := by
  simp [ingest, hne, detect_risk_level]

/-- C7 witness: a concrete non-empty text with a failing analyzer. -/
theorem C7_analyzer_failure_propagates_witness :
    ingest (fun _ => none) initialize_session_state "Person1" "t1" (some "hi")
      = Except.error "uncaught sentiment analyzer exception" :=
  C7_analyzer_failure_propagates _ _ _ _ (by decide)

/-- C8 counterexample: a whitespace-only utterance passes the `if text:`
truthiness filter and is classified and stored in the history. -/
theorem C8_whitespace_is_stored :
    ingest (fun _ => some ⟨"POSITIVE", 1⟩) initialize_session_state "Person1"
        "2025-01-01 00:00:00" (some " ")
      = Except.ok { speaker_count := 0, conversations :=
          [{ timestamp := "2025-01-01 00:00:00", speaker := "Person1",
             text := " ", risk_level := "Normal", sentiment_score := 1 }] } := rfl

/-- C8 amended: only empty text (or a failed transcription) is dropped before
classification; any non-empty text — whitespace-only included — is scored,
classified and appended to the history. -/
theorem C8_blank_filter (sentiment_analyzer : String → Option SentimentResult)
    (s : Session) (speaker timestamp : String) :
    ingest sentiment_analyzer s speaker timestamp none = Except.ok s ∧
    ingest sentiment_analyzer s speaker timestamp (some "") = Except.ok s ∧
    (∀ t r, t ≠ "" → sentiment_analyzer t = some r →
      ∃ tier, ingest sentiment_analyzer s speaker timestamp (some t)
        = Except.ok { s with conversations := s.conversations ++
            [{ timestamp := timestamp, speaker := speaker, text := t,
               risk_level := tier, sentiment_score := r.score }] }) := by
  refine ⟨rfl, rfl, ?_⟩
  intro t r hne hcall
  obtain ⟨tier, htier⟩ := detect_score_passthrough sentiment_analyzer t r hcall
  exact ⟨tier, by simp [ingest, hne, htier]⟩

/-- C8 witness: the whitespace-only text goes through classification and into
the history. -/
theorem C8_blank_filter_witness :
    ∃ tier, ingest (fun _ => some ⟨"POSITIVE", 1⟩) initialize_session_state
        "Person1" "t1" (some " ")
      = Except.ok { initialize_session_state with
          conversations := initialize_session_state.conversations ++
            [{ timestamp := "t1", speaker := "Person1", text := " ",
               risk_level := tier, sentiment_score := (1 : ℚ) }] } :=
  (C8_blank_filter _ _ _ _).2.2 " " ⟨"POSITIVE", 1⟩ (by decide) rfl

/-- C9: last_risk_tier is Normal on the fresh session and, after any
successful append, equals the risk tier of the appended utterance. -/
theorem C9_last_risk_tier_tracks_latest :
    last_risk_tier initialize_session_state = "Normal" ∧
    ∀ (s s2 : Session) (u : Utterance),
      sessionAppend s u = Except.ok s2 → last_risk_tier s2 = u.risk_level := by
  refine ⟨rfl, ?_⟩
  intro s s2 u h
  unfold sessionAppend at h
  by_cases hm : u.speaker ∈ speakers s
  · rw [if_pos hm] at h
    injection h with h2
    subst h2
    unfold last_risk_tier
    rw [List.getLast?_concat]
  · rw [if_neg hm] at h
    exact absurd h (by simp)

/-- C9 witness: after a second append the tier is the second utterance's. -/
theorem C9_last_risk_tier_tracks_latest_witness :
    last_risk_tier ⟨2, [⟨"t1", "Person1", "hello", "Normal", 1⟩,
        ⟨"t2", "Person2", "I want to end my life", "High", 1⟩]⟩
      = "High" :=
  C9_last_risk_tier_tracks_latest.2
    ⟨2, [⟨"t1", "Person1", "hello", "Normal", 1⟩]⟩ _
    ⟨"t2", "Person2", "I want to end my life", "High", 1⟩ rfl

/-- C10: the classifier consumes exactly one analyzer response per call, every
branch (the keyword High branch included) returns the analyzer's own score,
and when the analyzer call fails no classification is produced at all. -/
theorem C10_single_analyzer_call :
    (∀ (resp : Option SentimentResult) (rest : List (Option SentimentResult))
        (text : String),
      detect_risk_level_trace (resp :: rest) text
        = (detect_risk_level (fun _ => resp) text, rest)) ∧
    (∀ (sentiment_analyzer : String → Option SentimentResult) (text : String)
        (r : SentimentResult),
      sentiment_analyzer text = some r →
      ∃ tier, detect_risk_level sentiment_analyzer text = some (tier, r.score)) ∧
    (∀ (sentiment_analyzer : String → Option SentimentResult) (text : String),
      sentiment_analyzer text = none →
      detect_risk_level sentiment_analyzer text = none) := by
  refine ⟨?_, ?_, ?_⟩
  · intro resp rest text
    cases resp <;> rfl
  · exact detect_score_passthrough
  · intro sentiment_analyzer text hc
    unfold detect_risk_level
    rw [hc]

/-- C10 witness: a keyword-bearing text still carries the analyzer's score,
and one response is consumed from the stream. -/
theorem C10_single_analyzer_call_witness :
    detect_risk_level_trace [some ⟨"POSITIVE", 1⟩, none] "self harm"
      = (detect_risk_level (fun _ => some ⟨"POSITIVE", 1⟩) "self harm", [none]) ∧
    ∃ tier, detect_risk_level (fun _ => some ⟨"POSITIVE", 1⟩) "self harm"
      = some (tier, (1 : ℚ)) :=
  ⟨C10_single_analyzer_call.1 _ _ _,
   C10_single_analyzer_call.2.1 (fun _ => some ⟨"POSITIVE", 1⟩) "self harm"
     ⟨"POSITIVE", 1⟩ rfl⟩

end SentimentScribe
